import Mathlib

/-
  Verification of the circular slider navigation logic of the Menu component
  (src/src/components/Menu.jsx) of the gsap_landing repository.

  The component keeps one piece of state, `currentIndex`, over a fixed ordered
  collection of cocktail items, and exposes:
    - goToSlide index  : sets currentIndex to (index + N) % N   (JS remainder)
    - getCocktailAt o  : reads allCocktails[(currentIndex + o + N) % N]
    - arrow handlers   : goToSlide (currentIndex - 1) / goToSlide (currentIndex + 1)
    - tab handlers     : goToSlide index for index in [0, N)

  JS `%` on integral Numbers is the truncated remainder (sign of the dividend),
  modelled by Int.tmod. A JS array read at a negative or out-of-range index is
  `undefined`, modelled by Option.
-/

namespace GsapLanding

/-- One cocktail record, with the fields used by the Menu component
(id, name, title, description, image) from the constants module. -/
structure Item where
  id : Nat
  name : String
  title : String
  description : String
  image : String
deriving DecidableEq

/-- The Menu component state: the fixed cocktail collection (allCocktails)
and the currently selected index (React state, an integral JS Number). -/
structure MenuState where
  items : List Item
  currentIndex : Int
deriving DecidableEq

/-- JS `%` on integral Numbers: truncated remainder, sign of the dividend. -/
def jsRem (a b : Int) : Int := Int.tmod a b

/-- JS array read `arr[i]`: undefined (none) for a negative index,
undefined for an index at or beyond the length. -/
def jsGet (l : List Item) (i : Int) : Option Item :=
  if i < 0 then none else l.get? i.toNat

/-- `totalCocktails = allCocktails.length` (Menu.jsx line 91). -/
def totalCocktails (s : MenuState) : Int := s.items.length

/-- `goToSlide` (Menu.jsx lines 99-102):
`const newIndex = (index + totalCocktails) % totalCocktails; setCurrentIndex(newIndex)`. -/
def goToSlide (s : MenuState) (index : Int) : MenuState :=
  { s with currentIndex := jsRem (index + totalCocktails s) (totalCocktails s) }

/-- `getCocktailAt` (Menu.jsx lines 111-115):
`allCocktails[(currentIndex + indexOffset + totalCocktails) % totalCocktails]`. -/
def getCocktailAt (s : MenuState) (indexOffset : Int) : Option Item :=
  jsGet s.items (jsRem (s.currentIndex + indexOffset + totalCocktails s) (totalCocktails s))

/-- The spec's `step` operation, realised at the arrow call sites
(Menu.jsx lines 168 and 177) as `goToSlide(currentIndex + offset)`. -/
def stepSlide (s : MenuState) (offset : Int) : MenuState :=
  goToSlide s (s.currentIndex + offset)

/-- The spec's wrap function `((x mod N) + N) mod N` under true mathematical
modulo (Int.emod, never negative for N > 0). -/
def mathWrap (x n : Int) : Int := ((x % n) + n) % n

/-- The error taxonomy of spec section 7. -/
inductive NavError where
  | emptyCollection
deriving DecidableEq

/-- Modelled from the spec: the `initialize(items, startIndex)` operation and
`EmptyCollectionError` have no counterpart function under src (the Menu
component wires its state through the UI framework and an external constants
module); per spec sections 4.1 and 7, construction fails with
`EmptyCollectionError` exactly when the collection is empty, and otherwise
stores the start index normalised by the wrap function. -/
def initNav (items : List Item) (startIndex : Int) : Except NavError MenuState :=
  if items.length = 0 then Except.error NavError.emptyCollection
  else Except.ok { items := items, currentIndex := mathWrap startIndex items.length }

/-- A navigation request: absolute jump or relative step. -/
inductive MenuOp where
  | goTo (index : Int)
  | step (offset : Int)
deriving DecidableEq

/-- Apply one navigation request to the component state. -/
def applyOp (s : MenuState) (op : MenuOp) : MenuState :=
  match op with
  | MenuOp.goTo index => goToSlide s index
  | MenuOp.step offset => stepSlide s offset

/-- Apply a sequence of navigation requests, left to right. -/
def applyOps (s : MenuState) (ops : List MenuOp) : MenuState :=
  ops.foldl applyOp s

/-- Argument bound under which the single-correction wrap is exact:
the request argument is at least -N. -/
def opOk (s : MenuState) (op : MenuOp) : Bool :=
  match op with
  | MenuOp.goTo index => decide (-(totalCocktails s) ≤ index)
  | MenuOp.step offset => decide (-(totalCocktails s) ≤ offset)

/-- All requests of a sequence satisfy `opOk` at the state they are applied to. -/
def opsOk : MenuState → List MenuOp → Bool
  | _, [] => true
  | s, op :: rest => opOk s op && opsOk (applyOp s op) rest

/-- The UI events the rendered Menu component can generate: a tab click
(with the index of that tab) or a previous/next arrow click. -/
inductive UiEvent where
  | tabClick (index : Int)
  | prevClick
  | nextClick
deriving DecidableEq

/-- Dispatch of a UI event to `goToSlide`, as wired in the JSX
(Menu.jsx lines 152, 168, 177). -/
def applyEvent (s : MenuState) (e : UiEvent) : MenuState :=
  match e with
  | UiEvent.tabClick index => goToSlide s index
  | UiEvent.prevClick => goToSlide s (s.currentIndex - 1)
  | UiEvent.nextClick => goToSlide s (s.currentIndex + 1)

/-- Apply a sequence of UI events, left to right. -/
def applyEvents (s : MenuState) (es : List UiEvent) : MenuState :=
  es.foldl applyEvent s

/-- A tab click carries the index of an existing tab, one per item
(Menu.jsx line 143: allCocktails.map((cocktail, index) => ...)); arrow
clicks carry no argument. -/
def eventOk (s : MenuState) (e : UiEvent) : Bool :=
  match e with
  | UiEvent.tabClick index => decide (0 ≤ index) && decide (index < totalCocktails s)
  | UiEvent.prevClick => true
  | UiEvent.nextClick => true

/-- All events of a sequence are events the UI rendered at that state
can generate. -/
def eventsOk : MenuState → List UiEvent → Bool
  | _, [] => true
  | s, e :: rest => eventOk s e && eventsOk (applyEvent s e) rest

/-- The three reads the view performs on every render
(Menu.jsx lines 118-120): current, previous and next cocktail. -/
def renderView (s : MenuState) : Option Item × Option Item × Option Item :=
  (getCocktailAt s 0, getCocktailAt s (-1), getCocktailAt s 1)

/-- Concrete four-item collection (spec section 8 scenario A/B/C/D). -/
def itemA : Item := ⟨1, "A", "Title A", "Desc A", "a.png"⟩

def itemB : Item := ⟨2, "B", "Title B", "Desc B", "b.png"⟩

def itemC : Item := ⟨3, "C", "Title C", "Desc C", "c.png"⟩

def itemD : Item := ⟨4, "D", "Title D", "Desc D", "d.png"⟩

def cocktailsABCD : List Item := [itemA, itemB, itemC, itemD]

/-- The Menu state right after mount with the A/B/C/D collection:
currentIndex starts at 0 (Menu.jsx line 38). -/
def menuABCD : MenuState := ⟨cocktailsABCD, 0⟩

/- ===== Helper lemmas ===== -/

theorem jsRem_eq_emod_of_nonneg {a b : Int} (ha : 0 ≤ a) (hb : 0 ≤ b) :
    jsRem a b = a % b :=
  Int.tmod_eq_emod ha hb

theorem mathWrap_eq_emod (x n : Int) : mathWrap x n = x % n := by
  unfold mathWrap
  rw [Int.add_emod_self]
  exact Int.emod_emod_of_dvd x dvd_rfl

theorem mathWrap_bounds (x n : Int) (hn : 0 < n) :
    0 ≤ mathWrap x n ∧ mathWrap x n < n := by
  rw [mathWrap_eq_emod]
  exact ⟨Int.emod_nonneg x (by omega), Int.emod_lt_of_pos x hn⟩

theorem goToSlide_items_eq (s : MenuState) (index : Int) :
    (goToSlide s index).items = s.items := rfl

theorem goToSlide_total_eq (s : MenuState) (index : Int) :
    totalCocktails (goToSlide s index) = totalCocktails s := rfl

theorem goToSlide_wrap (s : MenuState) (index : Int)
    (hN : 0 < totalCocktails s) (h : -(totalCocktails s) ≤ index) :
    (goToSlide s index).currentIndex = mathWrap index (totalCocktails s) := by
  show jsRem (index + totalCocktails s) (totalCocktails s) = _
  rw [jsRem_eq_emod_of_nonneg (by omega) (by omega), Int.add_emod_self,
    mathWrap_eq_emod]

theorem goToSlide_valid (s : MenuState) (index : Int)
    (hN : 0 < totalCocktails s) (h : -(totalCocktails s) ≤ index) :
    0 ≤ (goToSlide s index).currentIndex ∧
    (goToSlide s index).currentIndex < totalCocktails s := by
  rw [goToSlide_wrap s index hN h]
  exact mathWrap_bounds index (totalCocktails s) hN

theorem applyOp_items_eq (s : MenuState) (op : MenuOp) :
    (applyOp s op).items = s.items := by
  cases op <;> rfl

theorem applyOp_total_eq (s : MenuState) (op : MenuOp) :
    totalCocktails (applyOp s op) = totalCocktails s := by
  cases op <;> rfl

theorem applyOp_valid (s : MenuState) (op : MenuOp)
    (hN : 0 < totalCocktails s) (hlo : 0 ≤ s.currentIndex)
    (_hhi : s.currentIndex < totalCocktails s) (hok : opOk s op = true) :
    0 ≤ (applyOp s op).currentIndex ∧
    (applyOp s op).currentIndex < totalCocktails (applyOp s op) := by
  rw [applyOp_total_eq]
  cases op with
  | goTo index =>
      have harg : -(totalCocktails s) ≤ index := by
        simpa [opOk] using hok
      exact goToSlide_valid s index hN harg
  | step offset =>
      have harg : -(totalCocktails s) ≤ offset := by
        simpa [opOk] using hok
      have harg2 : -(totalCocktails s) ≤ s.currentIndex + offset := by omega
      exact goToSlide_valid s (s.currentIndex + offset) hN harg2

theorem applyOps_valid (ops : List MenuOp) :
    ∀ s : MenuState, 0 < totalCocktails s → 0 ≤ s.currentIndex →
      s.currentIndex < totalCocktails s → opsOk s ops = true →
      0 ≤ (applyOps s ops).currentIndex ∧
      (applyOps s ops).currentIndex < totalCocktails (applyOps s ops) := by
  induction ops with
  | nil => intro s hN hlo hhi _; exact ⟨hlo, hhi⟩
  | cons op rest ih =>
      intro s hN hlo hhi hok
      have hsplit : opOk s op = true ∧ opsOk (applyOp s op) rest = true := by
        simpa [opsOk, Bool.and_eq_true] using hok
      have hstep := applyOp_valid s op hN hlo hhi hsplit.1
      have hN2 : 0 < totalCocktails (applyOp s op) := by
        rwa [applyOp_total_eq]
      have := ih (applyOp s op) hN2 hstep.1 hstep.2 hsplit.2
      simpa [applyOps] using this

theorem applyEvent_total_eq (s : MenuState) (e : UiEvent) :
    totalCocktails (applyEvent s e) = totalCocktails s := by
  cases e <;> rfl

theorem applyEvent_valid (s : MenuState) (e : UiEvent)
    (hN : 0 < totalCocktails s) (hlo : 0 ≤ s.currentIndex)
    (_hhi : s.currentIndex < totalCocktails s) (hok : eventOk s e = true) :
    0 ≤ (applyEvent s e).currentIndex ∧
    (applyEvent s e).currentIndex < totalCocktails (applyEvent s e) := by
  rw [applyEvent_total_eq]
  cases e with
  | tabClick index =>
      have harg : 0 ≤ index ∧ index < totalCocktails s := by
        simpa [eventOk, Bool.and_eq_true] using hok
      exact goToSlide_valid s index hN (by omega)
  | prevClick =>
      exact goToSlide_valid s (s.currentIndex - 1) hN (by omega)
  | nextClick =>
      exact goToSlide_valid s (s.currentIndex + 1) hN (by omega)

theorem applyEvents_valid (es : List UiEvent) :
    ∀ s : MenuState, 0 < totalCocktails s → 0 ≤ s.currentIndex →
      s.currentIndex < totalCocktails s → eventsOk s es = true →
      0 ≤ (applyEvents s es).currentIndex ∧
      (applyEvents s es).currentIndex < totalCocktails (applyEvents s es) := by
  induction es with
  | nil => intro s hN hlo hhi _; exact ⟨hlo, hhi⟩
  | cons e rest ih =>
      intro s hN hlo hhi hok
      have hsplit : eventOk s e = true ∧ eventsOk (applyEvent s e) rest = true := by
        simpa [eventsOk, Bool.and_eq_true] using hok
      have hstep := applyEvent_valid s e hN hlo hhi hsplit.1
      have hN2 : 0 < totalCocktails (applyEvent s e) := by
        rwa [applyEvent_total_eq]
      have := ih (applyEvent s e) hN2 hstep.1 hstep.2 hsplit.2
      simpa [applyEvents] using this

/- ===== Claim theorems ===== -/

/-- Claim C1: the claim states that goToSlide yields currentIndex =
((index mod N) + N) mod N, never negative, for any integer index of any
magnitude. Evaluating the code at the failing input index = -5 with a
four-item collection: the code's single-correction wrap under the JS
truncated remainder yields -1 (negative, out of range), while the claimed
double-modulo wrap yields 3. -/
theorem goToSlide_neg5_code_divergence :
    (goToSlide menuABCD (-5)).currentIndex = -1 ∧
    mathWrap (-5) (totalCocktails menuABCD) = 3 := by decide

/-- Claim C2: initialization fails with EmptyCollectionError exactly when the
collection is empty, and a successful initialization stores the supplied
collection together with an in-range currentIndex, so the component never
operates with an undefined currentIndex. -/
theorem initNav_failsClosed_iff_empty :
    ∀ (items : List Item) (startIndex : Int),
      (initNav items startIndex = Except.error NavError.emptyCollection ↔ items = []) ∧
      (∀ s : MenuState, initNav items startIndex = Except.ok s →
        s.items = items ∧ 0 ≤ s.currentIndex ∧ s.currentIndex < (items.length : Int)) := by
  intro items startIndex
  by_cases h : items.length = 0
  case pos =>
    have hnil : items = [] := List.length_eq_zero.mp h
    subst hnil
    constructor
    · simp [initNav]
    · intro s hs
      simp [initNav] at hs
  case neg =>
    have hpos : 0 < (items.length : Int) := by
      have := Nat.pos_of_ne_zero h
      exact_mod_cast this
    constructor
    · constructor
      · intro hs
        simp [initNav, h] at hs
      · intro hnil
        subst hnil
        simp at h
    · intro s hs
      have hs2 : ({ items := items, currentIndex := mathWrap startIndex (items.length : Int) } : MenuState) = s := by
        simpa [initNav, h] using hs
      cases hs2
      exact ⟨rfl, (mathWrap_bounds startIndex (items.length : Int) hpos).1,
        (mathWrap_bounds startIndex (items.length : Int) hpos).2⟩

theorem initNav_failsClosed_iff_empty_witness :
    (⟨cocktailsABCD, 3⟩ : MenuState).items = cocktailsABCD ∧
    0 ≤ (⟨cocktailsABCD, 3⟩ : MenuState).currentIndex ∧
    (⟨cocktailsABCD, 3⟩ : MenuState).currentIndex < (cocktailsABCD.length : Int) :=
  (initNav_failsClosed_iff_empty cocktailsABCD 7).2 ⟨cocktailsABCD, 3⟩ (by rfl)

/-- Claim C3 counterexample: the range invariant fails as stated. With the
four-item collection (N = 4 ≥ 1), starting from the initial state
(currentIndex = 0), the one-call sequence goTo(-5) leaves currentIndex = -1,
violating 0 ≤ currentIndex. -/
theorem range_invariant_fails_at_neg5 :
    ¬ (0 ≤ (applyOps menuABCD [MenuOp.goTo (-5)]).currentIndex) := by decide

/-- Claim C3 (amended): for every collection size N ≥ 1, starting from the
initial state, after every sequence of goTo and step calls whose integer
argument is at least -N (which covers every call site in the code), the
invariant 0 ≤ currentIndex < N holds. -/
theorem range_invariant_of_opsOk :
    ∀ (items : List Item) (ops : List MenuOp), 1 ≤ items.length →
      opsOk ⟨items, 0⟩ ops = true →
      0 ≤ (applyOps ⟨items, 0⟩ ops).currentIndex ∧
      (applyOps ⟨items, 0⟩ ops).currentIndex <
        totalCocktails (applyOps ⟨items, 0⟩ ops) := by
  intro items ops hN hok
  have hN2 : 0 < totalCocktails (⟨items, 0⟩ : MenuState) := by
    show (0 : Int) < (items.length : Int)
    exact_mod_cast hN
  exact applyOps_valid ops ⟨items, 0⟩ hN2 (le_refl 0) hN2 hok

theorem range_invariant_of_opsOk_witness :
    0 ≤ (applyOps ⟨cocktailsABCD, 0⟩
        [MenuOp.goTo 7, MenuOp.step (-1), MenuOp.step (-4), MenuOp.goTo (-2)]).currentIndex ∧
    (applyOps ⟨cocktailsABCD, 0⟩
        [MenuOp.goTo 7, MenuOp.step (-1), MenuOp.step (-4), MenuOp.goTo (-2)]).currentIndex <
      totalCocktails (applyOps ⟨cocktailsABCD, 0⟩
        [MenuOp.goTo 7, MenuOp.step (-1), MenuOp.step (-4), MenuOp.goTo (-2)]) :=
  range_invariant_of_opsOk cocktailsABCD
    [MenuOp.goTo 7, MenuOp.step (-1), MenuOp.step (-4), MenuOp.goTo (-2)]
    (by decide) (by decide)

/-- Claim C4 counterexample: with the four-item collection, k = -2 and i = 1,
goToSlide at k*N + i = -7 yields -3 while goToSlide at i = 1 yields 1, so the
stated periodicity fails for negative k of magnitude above one wrap. -/
theorem goToSlide_periodicity_fails :
    (goToSlide menuABCD ((-2) * totalCocktails menuABCD + 1)).currentIndex ≠
    (goToSlide menuABCD 1).currentIndex := by decide

/-- Claim C4 (amended): for every state with N ≥ 1, every k ≥ 0 and every
i ≥ -N, goToSlide at k*N + i and goToSlide at i reach the same currentIndex. -/
theorem goToSlide_periodic_of_nonneg_k :
    ∀ (s : MenuState) (k i : Int), 0 < totalCocktails s → 0 ≤ k →
      -(totalCocktails s) ≤ i →
      (goToSlide s (k * totalCocktails s + i)).currentIndex =
      (goToSlide s i).currentIndex := by
  intro s k i hN hk hi
  have hkN : 0 ≤ k * totalCocktails s := mul_nonneg hk (le_of_lt hN)
  have harg : -(totalCocktails s) ≤ k * totalCocktails s + i := by omega
  rw [goToSlide_wrap s _ hN harg, goToSlide_wrap s i hN hi,
    mathWrap_eq_emod, mathWrap_eq_emod, Int.add_comm (k * totalCocktails s) i]
  exact Int.add_mul_emod_self

theorem goToSlide_periodic_of_nonneg_k_witness :
    (goToSlide menuABCD (3 * totalCocktails menuABCD + (-2))).currentIndex =
    (goToSlide menuABCD (-2)).currentIndex :=
  goToSlide_periodic_of_nonneg_k menuABCD 3 (-2) (by decide) (by decide) (by decide)

/-- Claim C5: for every valid state, the item previewed at offset 0 is the
item stored at the current index, and the item previewed at any integer
offset is exactly the item found at the index reached by actually stepping
by that offset. -/
theorem getCocktailAt_step_consistency :
    ∀ (s : MenuState) (offset : Int), 0 ≤ s.currentIndex →
      s.currentIndex < totalCocktails s →
      getCocktailAt s 0 = jsGet s.items s.currentIndex ∧
      getCocktailAt s offset = jsGet s.items ((stepSlide s offset).currentIndex) := by
  intro s offset hlo hhi
  constructor
  · show jsGet s.items
      (jsRem (s.currentIndex + 0 + totalCocktails s) (totalCocktails s)) = _
    have hidx : jsRem (s.currentIndex + 0 + totalCocktails s) (totalCocktails s) =
        s.currentIndex := by
      rw [add_zero, jsRem_eq_emod_of_nonneg (by omega) (by omega),
        Int.add_emod_self, Int.emod_eq_of_lt hlo hhi]
    rw [hidx]
  · rfl

theorem getCocktailAt_step_consistency_witness :
    getCocktailAt ⟨cocktailsABCD, 2⟩ 0 =
      jsGet (⟨cocktailsABCD, 2⟩ : MenuState).items
        (⟨cocktailsABCD, 2⟩ : MenuState).currentIndex ∧
    getCocktailAt ⟨cocktailsABCD, 2⟩ (-9) =
      jsGet (⟨cocktailsABCD, 2⟩ : MenuState).items
        ((stepSlide ⟨cocktailsABCD, 2⟩ (-9)).currentIndex) :=
  getCocktailAt_step_consistency ⟨cocktailsABCD, 2⟩ (-9) (by decide) (by decide)

/-- Claim C6 counterexample: at the initial state of the four-item collection
and offset -9, getCocktailAt reads index (0 - 9 + 4) % 4 = -1 under the JS
remainder and returns undefined (none), while the claimed double-modulo index
is 3, whose item exists — so getCocktailAt neither returns the claimed item
nor never fails. -/
theorem getCocktailAt_large_negative_offset_fails :
    getCocktailAt menuABCD (-9) = none ∧
    jsGet menuABCD.items
      (mathWrap (menuABCD.currentIndex + (-9)) (totalCocktails menuABCD)) =
      some itemD := by decide

/-- Claim C6 (amended): for every valid state and every offset with
currentIndex + offset ≥ -N, getCocktailAt is the read of
items[((currentIndex + offset) mod N + N) mod N], a valid in-range index,
and it never fails; it is a pure read by construction. -/
theorem getCocktailAt_doubleModulo_of_bounded_offset :
    ∀ (s : MenuState) (offset : Int), 0 ≤ s.currentIndex →
      s.currentIndex < totalCocktails s →
      -(totalCocktails s) ≤ s.currentIndex + offset →
      getCocktailAt s offset =
        s.items.get? ((mathWrap (s.currentIndex + offset) (totalCocktails s)).toNat) ∧
      (getCocktailAt s offset).isSome = true := by
  intro s offset hlo hhi hoff
  have hN : 0 < totalCocktails s := lt_of_le_of_lt hlo hhi
  have hw := mathWrap_bounds (s.currentIndex + offset) (totalCocktails s) hN
  have hidx : jsRem (s.currentIndex + offset + totalCocktails s) (totalCocktails s) =
      mathWrap (s.currentIndex + offset) (totalCocktails s) := by
    rw [jsRem_eq_emod_of_nonneg (by omega) (by omega), Int.add_emod_self,
      mathWrap_eq_emod]
  have hmain : getCocktailAt s offset =
      s.items.get? ((mathWrap (s.currentIndex + offset) (totalCocktails s)).toNat) := by
    show jsGet s.items
      (jsRem (s.currentIndex + offset + totalCocktails s) (totalCocktails s)) = _
    rw [hidx]
    unfold jsGet
    rw [if_neg (by omega)]
  refine ⟨hmain, ?_⟩
  rw [hmain]
  have hts : totalCocktails s = (s.items.length : Int) := rfl
  have hlt : (mathWrap (s.currentIndex + offset) (totalCocktails s)).toNat <
      s.items.length := by omega
  cases hg : s.items.get?
      ((mathWrap (s.currentIndex + offset) (totalCocktails s)).toNat) with
  | none => exact absurd (List.get?_eq_none.mp hg) (Nat.not_le.mpr hlt)
  | some a => rfl

theorem getCocktailAt_doubleModulo_witness :
    getCocktailAt ⟨cocktailsABCD, 1⟩ (-3) =
      (⟨cocktailsABCD, 1⟩ : MenuState).items.get?
        ((mathWrap ((⟨cocktailsABCD, 1⟩ : MenuState).currentIndex + (-3))
          (totalCocktails ⟨cocktailsABCD, 1⟩)).toNat) ∧
    (getCocktailAt ⟨cocktailsABCD, 1⟩ (-3)).isSome = true :=
  getCocktailAt_doubleModulo_of_bounded_offset ⟨cocktailsABCD, 1⟩ (-3)
    (by decide) (by decide) (by decide)

/-- Claim C7: for every valid state, re-selecting the current index is a
no-op: goToSlide at the current index returns a state equal to the input
state. -/
theorem goToSlide_self_noop :
    ∀ s : MenuState, 0 ≤ s.currentIndex → s.currentIndex < totalCocktails s →
      goToSlide s s.currentIndex = s := by
  intro s hlo hhi
  have hidx : jsRem (s.currentIndex + totalCocktails s) (totalCocktails s) =
      s.currentIndex := by
    rw [jsRem_eq_emod_of_nonneg (by omega) (by omega), Int.add_emod_self,
      Int.emod_eq_of_lt hlo hhi]
  have h2 : goToSlide s s.currentIndex = { s with currentIndex := s.currentIndex } := by
    unfold goToSlide
    rw [hidx]
  rw [h2]

theorem goToSlide_self_noop_witness :
    goToSlide ⟨cocktailsABCD, 2⟩ (⟨cocktailsABCD, 2⟩ : MenuState).currentIndex =
      ⟨cocktailsABCD, 2⟩ :=
  goToSlide_self_noop ⟨cocktailsABCD, 2⟩ (by decide) (by decide)

/-- Claim C8: no navigation operation mutates the items collection — after any
sequence of goTo/step requests the collection held in the state is the very
collection supplied at the start (element for element); the reads
getCocktailAt and renderView return values without touching the state at all. -/
theorem operations_never_mutate_items :
    ∀ (ops : List MenuOp) (s : MenuState), (applyOps s ops).items = s.items := by
  intro ops
  induction ops with
  | nil => intro s; rfl
  | cons op rest ih =>
      intro s
      have hstep : applyOps s (op :: rest) = applyOps (applyOp s op) rest := rfl
      rw [hstep, ih (applyOp s op), applyOp_items_eq]

/-- Claim C9: restricted to the events the rendered UI generates — tab clicks
with an index in [0, N) and arrow clicks dispatching currentIndex ± 1 —
starting from currentIndex = 0 with N ≥ 1, every reachable currentIndex stays
in [0, N): the single-correction wrap suffices for all call sites in the
code. -/
theorem ui_reachable_indices_in_range :
    ∀ (items : List Item) (es : List UiEvent), 1 ≤ items.length →
      eventsOk ⟨items, 0⟩ es = true →
      0 ≤ (applyEvents ⟨items, 0⟩ es).currentIndex ∧
      (applyEvents ⟨items, 0⟩ es).currentIndex <
        totalCocktails (applyEvents ⟨items, 0⟩ es) := by
  intro items es hN hok
  have hN2 : 0 < totalCocktails (⟨items, 0⟩ : MenuState) := by
    show (0 : Int) < (items.length : Int)
    exact_mod_cast hN
  exact applyEvents_valid es ⟨items, 0⟩ hN2 (le_refl 0) hN2 hok

theorem ui_reachable_indices_in_range_witness :
    0 ≤ (applyEvents ⟨cocktailsABCD, 0⟩
        [UiEvent.tabClick 2, UiEvent.prevClick, UiEvent.prevClick,
          UiEvent.prevClick, UiEvent.nextClick]).currentIndex ∧
    (applyEvents ⟨cocktailsABCD, 0⟩
        [UiEvent.tabClick 2, UiEvent.prevClick, UiEvent.prevClick,
          UiEvent.prevClick, UiEvent.nextClick]).currentIndex <
      totalCocktails (applyEvents ⟨cocktailsABCD, 0⟩
        [UiEvent.tabClick 2, UiEvent.prevClick, UiEvent.prevClick,
          UiEvent.prevClick, UiEvent.nextClick]) :=
  ui_reachable_indices_in_range cocktailsABCD
    [UiEvent.tabClick 2, UiEvent.prevClick, UiEvent.prevClick,
      UiEvent.prevClick, UiEvent.nextClick]
    (by decide) (by decide)

/-- Claim C10: on the domain index ≥ -N the code's single-correction wrap
(index + N) % N under the JS truncated remainder coincides with the fully
general double-modulo wrap ((index mod N) + N) mod N, and outside that domain
the two can disagree (they do at index = -5 with N = 4). -/
theorem singleWrap_matches_doubleWrap_on_domain :
    (∀ (s : MenuState) (index : Int), 0 < totalCocktails s →
        -(totalCocktails s) ≤ index →
        (goToSlide s index).currentIndex = mathWrap index (totalCocktails s)) ∧
    (goToSlide menuABCD (-5)).currentIndex ≠
      mathWrap (-5) (totalCocktails menuABCD) := by
  constructor
  · intro s index hN h
    exact goToSlide_wrap s index hN h
  · decide

theorem singleWrap_matches_doubleWrap_on_domain_witness :
    (goToSlide menuABCD (-3)).currentIndex =
      mathWrap (-3) (totalCocktails menuABCD) :=
  singleWrap_matches_doubleWrap_on_domain.1 menuABCD (-3) (by decide) (by decide)

end GsapLanding
